import Mathlib

/-!
# Verification of the hezar `Config` subsystem

A shallow embedding of `src/hezar/configs.py` (and the config declarations of
`src/hezar/preprocessors/tokenizers/bpe.py`), together with theorems settling
the specification claims about it.

Python values appearing in config mappings are modelled by the inductive type
`Value`; Python dictionaries (which preserve insertion order and keep the
original position of a key on overwrite) are modelled by the association-list
type `Entries`.  Python classes are modelled by `PyClass` records carrying the
declared dataclass fields (name and default, in declaration order) and the
names of the remaining class-level attributes.  Machinery the claims never
exercise (dunder attributes inherited from `object`, float arithmetic) is kept
inert: float literals are carried as their source text, and the attribute
tables list exactly the attributes defined in the sources.
-/

set_option autoImplicit false

namespace Hezar

/-! ## String helpers (CPython semantics) -/

/-- Character-list prefix test, used to model `str.startswith` and substring
matching in `str.replace`. -/
def isPrefixL : List Char → List Char → Bool
  | [], _ => true
  | _ :: _, [] => false
  | a :: as, b :: bs => a == b && isPrefixL as bs

/-- Python `str.startswith`. -/
def strStartsWith (s pre : String) : Bool :=
  isPrefixL pre.data s.data

/-- Python `str.endswith`. -/
def strEndsWith (s suf : String) : Bool :=
  isPrefixL suf.data.reverse s.data.reverse

/-- One pass of `str.replace`: replaces non-overlapping occurrences of `pat`
(nonempty) left to right, with enough fuel to traverse the string. -/
def replaceAux (pat repl : List Char) : Nat → List Char → List Char
  | _, [] => []
  | 0, s => s
  | fuel + 1, c :: rest =>
    if isPrefixL pat (c :: rest) then
      repl ++ replaceAux pat repl fuel (List.drop (pat.length - 1) rest)
    else
      c :: replaceAux pat repl fuel rest

/-- Python `s.replace(pat, repl)` for a nonempty pattern (the sources only
replace the literal `"Config"`). -/
def pyReplace (s pat repl : String) : String :=
  if pat.data.isEmpty then s
  else ⟨replaceAux pat.data repl.data s.data.length s.data⟩

/-- Python `str.lower` (ASCII, which covers every class name in the sources). -/
def pyLower (s : String) : String :=
  ⟨s.data.map Char.toLower⟩

/-- CPython `posixpath.join` folded over one extra component. -/
def osJoin (path b : String) : String :=
  if strStartsWith b "/" then b
  else if path == "" || strEndsWith path "/" then path ++ b
  else path ++ "/" ++ b

/-- Python `os.path.join(a, b, c)`. -/
def osJoin3 (a b c : String) : String :=
  osJoin (osJoin a b) c

/-- A POSIX path is absolute when it starts with the separator. -/
def isAbsPath (p : String) : Bool :=
  strStartsWith p "/"

/-- Modelled from the spec: `snake_case` lives in `hezar.utils.common_utils`,
which is not part of the sources; the spec describes `name` as a
"derived, lower-snake-case identifier derived from the concrete type's name".
An underscore is inserted before every uppercase letter that is not the first
character, and the whole string is lowercased. -/
def snakeCaseAux : List Char → Bool → List Char
  | [], _ => []
  | c :: rest, first =>
    if c.isUpper && !first then '_' :: c.toLower :: snakeCaseAux rest false
    else c.toLower :: snakeCaseAux rest false

/-- Modelled from the spec: lower-snake-case conversion of a CamelCase name. -/
def snake_case (s : String) : String :=
  ⟨snakeCaseAux s.data true⟩

/-! ## Values and dictionaries -/

mutual
/-- A Python value as it appears in config objects and mappings.  Floats are
inert literals (no arithmetic is performed on them anywhere in the sources);
a dataclass instance `vconfig cls fields extra` carries its class name, its
declared-field slots (in field order) and the extra instance attributes
created by `setattr` on undeclared names. -/
inductive Value : Type where
  | vnone : Value
  | vbool : Bool → Value
  | vint : Int → Value
  | vstr : String → Value
  | vfloat : String → Value
  | vdict : Entries → Value
  | vconfig : String → Entries → Entries → Value

/-- An insertion-ordered string-keyed dictionary. -/
inductive Entries : Type where
  | nil : Entries
  | cons : String → Value → Entries → Entries
end

deriving instance DecidableEq for Value
deriving instance DecidableEq for Entries
deriving instance DecidableEq for Except

namespace Entries

/-- First binding of `k`, like Python `d[k]` (keys are unique in real dicts). -/
def lookup : Entries → String → Option Value
  | nil, _ => none
  | cons k v r, k' => if k == k' then some v else lookup r k'

/-- The key list, in insertion order. -/
def keys : Entries → List String
  | nil => []
  | cons k _ r => k :: keys r

/-- Key membership, like Python `k in d`. -/
def hasKey (es : Entries) (k : String) : Bool :=
  (es.lookup k).isSome

/-- Python `d[k] = v`: overwrite in place (keeping the key's position) or
append a fresh key at the end. -/
def set : Entries → String → Value → Entries
  | nil, k, v => cons k v nil
  | cons k' v' r, k, v => if k' == k then cons k' v r else cons k' v' (set r k v)

/-- Python `d.update(other)`: fold `set` over the bindings of `other`. -/
def pyUpdate : Entries → Entries → Entries
  | d, nil => d
  | d, cons k v r => pyUpdate (d.set k v) r

/-- Keep the bindings whose key satisfies `p` (a dict comprehension filtering
on the key). -/
def filterKeys : Entries → (String → Bool) → Entries
  | nil, _ => nil
  | cons k v r, p => if p k then cons k v (filterKeys r p) else filterKeys r p

/-- Drop the bindings whose value is `None` (the save-time comprehension
`{k: v for k, v in config.items() if v is not None}`). -/
def dropNone : Entries → Entries
  | nil => nil
  | cons k v r =>
    match v with
    | Value.vnone => dropNone r
    | _ => cons k v (dropNone r)

end Entries

mutual
/-- Python `dataclasses.asdict` on a value: dataclass instances become plain dicts,
recursively (dict values are also recursed into; extra instance attributes are
not part of the field iteration and disappear). -/
def asdictValue : Value → Value
  | .vconfig _ fields _ => .vdict (asdictEntries fields)
  | .vdict es => .vdict (asdictEntries es)
  | .vnone => .vnone
  | .vbool b => .vbool b
  | .vint n => .vint n
  | .vstr s => .vstr s
  | .vfloat f => .vfloat f

/-- The `asdict` conversion mapped over the bindings of a dictionary. -/
def asdictEntries : Entries → Entries
  | .nil => .nil
  | .cons k v r => .cons k (asdictValue v) (asdictEntries r)
end

mutual
/-- No `None` occurs anywhere in the value (the "no null fields" side
condition of the round-trip claim). -/
def noNoneV : Value → Bool
  | .vnone => false
  | .vdict es => noNoneE es
  | .vconfig _ fields extra => noNoneE fields && noNoneE extra
  | _ => true

/-- Conjunction of `noNoneV` over all values of a dictionary. -/
def noNoneE : Entries → Bool
  | .nil => true
  | .cons _ v r => noNoneV v && noNoneE r
end

mutual
/-- No nested dataclass instance occurs anywhere in the value. -/
def configFreeV : Value → Bool
  | .vconfig _ _ _ => false
  | .vdict es => configFreeE es
  | _ => true

/-- Conjunction of `configFreeV` over all values of a dictionary. -/
def configFreeE : Entries → Bool
  | .nil => true
  | .cons _ v r => configFreeV v && configFreeE r
end

/-! ## Python errors -/

/-- The exceptions the embedded operations can raise.  The payload records the
offending key, keyword, attribute or path. -/
inductive PyError : Type where
  | keyError : String → PyError
  | typeError : String → PyError
  | attributeError : String → PyError
  | environmentError : String → PyError
  | transportError : String → PyError
  | registryError : String → String → PyError
deriving DecidableEq

/-! ## Classes -/

/-- A Python dataclass as declared in the sources: its name, the name of its
direct parent class, its declared dataclass fields (name and default value, in
declaration order) and the names of its remaining class-level attributes
(plain assignments without a type hint, which are class attributes but not
dataclass fields).  For every class in the sources the declared fields
coincide with the class's own `__annotations__` (no in-source ancestor
declares fields of its own). -/
structure PyClass where
  name : String
  parent : String
  fields : Entries
  classAttrs : List String
deriving DecidableEq

/-- The methods and properties defined in the body of the base `Config`
class; `hasattr(cls, k)` is true for all of them on every subclass.  Dunder
attributes inherited from `object` are omitted: no claim queries them. -/
def configBaseAttrs : List String :=
  ["name", "config_type", "dict", "keys", "get", "update", "load",
   "from_dict", "save", "push_to_hub"]

/-- Python `hasattr(cls, k)` for a config class: a declared field with a default, a
plain class attribute, or an attribute of the base `Config` class. -/
def hasattrC (C : PyClass) (k : String) : Bool :=
  C.fields.hasKey k || C.classAttrs.contains k || configBaseAttrs.contains k

/-- First keyword argument that is not a declared field: the one the
dataclass `__init__` rejects with `TypeError: unexpected keyword argument`. -/
def firstNonField (C : PyClass) : Entries → Option String
  | .nil => none
  | .cons k _ r => if C.fields.hasKey k then firstNonField C r else some k

/-- The field slots produced by the dataclass `__init__`: every declared
field, in declaration order, taking the keyword argument when present and the
declared default otherwise. -/
def initFields : Entries → Entries → Entries
  | .nil, _ => .nil
  | .cons k d r, kw => .cons k ((kw.lookup k).getD d) (initFields r kw)

/-- Constructor call `cls(**kw)` for a dataclass whose fields all have defaults (true of every
class in the sources): rejects undeclared keywords, otherwise fills the field
slots. -/
def dataclassInit (C : PyClass) (kw : Entries) : Except PyError Value :=
  match firstNonField C kw with
  | some k => .error (.typeError k)
  | none => .ok (.vconfig C.name (initFields C.fields kw) .nil)

/-- The instance `cls()` with every field at its declared default. -/
def defaultInstance (C : PyClass) : Value :=
  .vconfig C.name C.fields .nil

/-- The value is a well-formed instance of `C`: right class name, field slots
matching the declared fields in order, and no extra instance attributes. -/
def shapeOK (C : PyClass) (v : Value) : Bool :=
  match v with
  | .vconfig c fields extra =>
    c == C.name && fields.keys == C.fields.keys &&
      (match extra with | .nil => true | _ => false)
  | _ => false

/-! ## The `Config` operations (`src/hezar/configs.py`) -/

namespace Config

/-- The `Config.name` property computed from a class name:
`snake_case(cls.__name__.replace("Config", "")) or "base"`. -/
def nameProp (className : String) : String :=
  let n := snake_case (pyReplace className "Config" "")
  if n == "" then "base" else n

/-- The table `CONFIG_TYPES_MAPPING` from `configs.py`.  The `ConfigType` enumeration
itself lives in `hezar/constants.py`, which is not part of the sources; its
members are modelled from the spec's fixed enumeration of categories
(base, model, preprocessor, trainer, dataset, embedding, criterion,
optimizer, lr_scheduler, metric) as their string values. -/
def CONFIG_TYPES_MAPPING : List (String × String) :=
  [("Config", "base"),
   ("ModelConfig", "model"),
   ("PreprocessorConfig", "preprocessor"),
   ("TrainerConfig", "trainer"),
   ("DatasetConfig", "dataset"),
   ("EmbeddingConfig", "embedding"),
   ("CriterionConfig", "criterion"),
   ("OptimizerConfig", "optimizer"),
   ("LRSchedulerConfig", "lr_scheduler"),
   ("MetricConfig", "metric")]

/-- Lookup in `CONFIG_TYPES_MAPPING` (`None` models a `KeyError`). -/
def ctLookup : List (String × String) → String → Option String
  | [], _ => none
  | (k, v) :: r, k' => if k == k' then some v else ctLookup r k'

/-- The `Config.config_type` property, as written in the source:

* `parent_class = cls.__mro__[1].__name__`, looked up in
  `CONFIG_TYPES_MAPPING` (a missing parent is a `KeyError`);
* when the parent maps to the base category and the class itself is not in
  the table, the lowercased stripped class name is returned (after a
  warning);
* otherwise the source looks up `CONFIG_TYPES_MAPPING[cls.__name__]` — the
  class's own name, not the parent's — and strips/lowers that value. -/
def configTypeOf (className parentName : String) : Except PyError String :=
  match ctLookup CONFIG_TYPES_MAPPING parentName with
  | none => .error (.keyError parentName)
  | some ct =>
    if ct == "base" && (ctLookup CONFIG_TYPES_MAPPING className).isNone then
      .ok (pyLower (pyReplace className "Config" ""))
    else
      match ctLookup CONFIG_TYPES_MAPPING className with
      | none => .error (.keyError className)
      | some v => .ok (pyLower (pyReplace v "Config" ""))

/-- The method `Config.dict`, i.e. `asdict(self)`: the declared field slots, with nested
dataclass instances flattened to plain dicts.  Extra instance attributes are
not dataclass fields and do not appear. -/
def dict (v : Value) : Entries :=
  match v with
  | .vconfig _ fields _ => asdictEntries fields
  | _ => .nil

/-- The method `Config.__getitem__`: `self.dict()[item]`, with the `KeyError` turned
into an `AttributeError` naming the missing item. -/
def getitem (inst : Value) (k : String) : Except PyError Value :=
  match (dict inst).lookup k with
  | some v => .ok v
  | none => .error (.attributeError k)

/-- Reading `instance.name`: the instance attribute when the class declares a
`name` field (or one was set dynamically), else the derived `name` property
of the class. -/
def getName (C : PyClass) (inst : Value) : Value :=
  match inst with
  | .vconfig _ fields extra =>
    match fields.lookup "name" with
    | some v => v
    | none =>
      match extra.lookup "name" with
      | some v => v
      | none => .vstr (nameProp C.name)
  | _ => .vstr (nameProp C.name)

/-- The classmethod `Config.from_dict(dict_config, **kwargs)`:

1. `dict_config.update(**kwargs)` merges the keyword arguments into the
   mapping (keywords win);
2. the comprehension keeps exactly the keys `k` with `hasattr(cls, k)`;
3. `cls(**kept)` constructs the instance (a kept key that is not a declared
   field is an unexpected keyword argument and raises `TypeError`).

There is no `strict` parameter: a `strict=...` keyword lands in `kwargs` and
is merged into the mapping like any other key. -/
def from_dict (C : PyClass) (m kwargs : Entries) : Except PyError Value :=
  let m' := m.pyUpdate kwargs
  dataclassInit C (m'.filterKeys (hasattrC C))

/-- Python `setattr(instance, k, v)` when nothing blocks the write: overwrite a
declared field slot, or create/overwrite an extra instance attribute. -/
def setattrI (inst : Value) (k : String) (v : Value) : Value :=
  match inst with
  | .vconfig c fields extra =>
    if fields.hasKey k then .vconfig c (fields.set k v) extra
    else .vconfig c fields (extra.set k v)
  | other => other

/-- Python `setattr` raises `AttributeError` (cannot set attribute) when the name is a
property without a setter on the class — `name` and `config_type` on every
class that does not shadow them with a field or class attribute of its own. -/
def blockedSetattr (C : PyClass) (k : String) : Bool :=
  (k == "name" || k == "config_type") &&
    !C.fields.hasKey k && !C.classAttrs.contains k

/-- The body of the `update` loop: for each binding in order, warn when the
key is not among the class's declared fields (its own `__annotations__`),
then `setattr`.  Returns the warning keys in order, the final instance state,
and the key of the `AttributeError` when one was raised (the loop stops
there; the warning for that key has already been emitted). -/
def updateLoop (C : PyClass) : Value → Entries → List String × Value × Option String
  | inst, .nil => ([], inst, none)
  | inst, .cons k v r =>
    let w : List String := if C.fields.hasKey k then [] else [k]
    if blockedSetattr C k then (w, inst, some k)
    else
      match updateLoop C (setattrI inst k v) r with
      | (ws, instF, err) => (w ++ ws, instF, err)

/-- The `setattr` write folded over a whole dictionary (the effect of a fully
successful `update` loop). -/
def applyEntries : Value → Entries → Value
  | inst, .nil => inst
  | inst, .cons k v r => applyEntries (setattrI inst k v) r

/-- The observable outcome of `Config.update`: the caller's dictionary after
the in-place `d.update(kwargs)`, the instance state when the call finished,
the warnings emitted, and the returned value (`.ok` of the same, mutated
instance) or the raised error. -/
structure UpdateOutcome where
  dAfter : Entries
  self : Value
  warnings : List String
  result : Except PyError Value
deriving DecidableEq

/-- The method `Config.update(d, **kwargs)`: mutate `d` with the keyword arguments, then
iterate the merged dictionary warning/setting as `updateLoop` does, and
return `self`. -/
def update (C : PyClass) (inst : Value) (d kwargs : Entries) : UpdateOutcome :=
  let d' := d.pyUpdate kwargs
  match updateLoop C inst d' with
  | (ws, instF, none) => ⟨d', instF, ws, .ok instF⟩
  | (ws, instF, some k) => ⟨d', instF, ws, .error (.attributeError k)⟩

/-- The filesystem effect of `Config.save`: the directory passed to
`os.makedirs(..., exist_ok=True)` (so re-creating it succeeds), the path
written, and the mapping handed to `OmegaConf.save`. -/
structure SaveEffect where
  madeDir : String
  writtenPath : String
  written : Entries
deriving DecidableEq

/-- The method `Config.save(save_dir, filename, subfolder)` with the `subfolder or ""`
defaulting already applied by the caller: serialize, drop `None`-valued
top-level entries, create the directory, write, and return the composed path
exactly as `os.path.join` built it. -/
def save (inst : Value) (save_dir subfolder filename : String) : SaveEffect :=
  { madeDir := osJoin save_dir subfolder
    writtenPath := osJoin3 save_dir subfolder filename
    written := (dict inst).dropNone }

end Config

/-! ## Class tables

One `PyClass` record per dataclass declared in the sources.  In
`bpe.py`, `initial_alphabet`, `special_tokens`, `pad_token_id` and
`pad_token` are assigned without a type hint, so they are class attributes
but not dataclass fields.  The parents `TokenizerConfig` and
`TokenizerTrainConfig` are declared outside the sources; any fields they
contribute are unknown and the tables carry the classes' own fields only
(which is all the claims exercise). -/

/-- Abbreviation for building an `Entries` from a list. -/
def entriesOf : List (String × Value) → Entries
  | [] => .nil
  | (k, v) :: r => .cons k v (entriesOf r)

def ModelConfigClass : PyClass :=
  ⟨"ModelConfig", "Config", .nil, []⟩

def PreprocessorConfigClass : PyClass :=
  ⟨"PreprocessorConfig", "Config", .nil, []⟩

def DatasetConfigClass : PyClass :=
  ⟨"DatasetConfig", "Config", entriesOf [("task", .vnone)], []⟩

def EmbeddingConfigClass : PyClass :=
  ⟨"EmbeddingConfig", "Config", .nil, []⟩

def CriterionConfigClass : PyClass :=
  ⟨"CriterionConfig", "Config",
    entriesOf [("weight", .vnone), ("reduce", .vnone),
               ("ignore_index", .vint (-100))], []⟩

def LRSchedulerConfigClass : PyClass :=
  ⟨"LRSchedulerConfig", "Config", entriesOf [("verbose", .vbool true)], []⟩

def OptimizerConfigClass : PyClass :=
  ⟨"OptimizerConfig", "Config",
    entriesOf [("lr", .vnone), ("weight_decay", .vfloat "0.0"),
               ("scheduler", .vnone)], []⟩

def MetricConfigClass : PyClass :=
  ⟨"MetricConfig", "Config", .nil, []⟩

def TrainerConfigClass : PyClass :=
  ⟨"TrainerConfig", "Config",
    entriesOf
      [("task", .vnone), ("device", .vstr "cuda"),
       ("init_weights_from", .vnone), ("dataset_config", .vnone),
       ("num_dataloader_workers", .vint 0), ("seed", .vint 42),
       ("optimizer", .vnone), ("batch_size", .vnone),
       ("use_amp", .vbool false), ("metrics", .vnone),
       ("num_epochs", .vnone), ("save_freq", .vint 1),
       ("checkpoints_dir", .vnone), ("log_dir", .vnone)], []⟩

def BPETrainConfigClass : PyClass :=
  ⟨"BPETrainConfig", "TokenizerTrainConfig",
    entriesOf
      [("name", .vstr "bpe_tokenizer"), ("vocab_size", .vint 30000),
       ("min_frequency", .vint 2), ("limit_alphabet", .vint 1000),
       ("show_progress", .vbool true)],
    ["initial_alphabet"]⟩

def BPEConfigClass : PyClass :=
  ⟨"BPEConfig", "TokenizerConfig",
    entriesOf
      [("name", .vstr "bpe_tokenizer"),
       ("truncation_strategy", .vstr "no_truncation"),
       ("padding_strategy", .vstr "no_padding"),
       ("unk_token", .vnone), ("dropout", .vnone),
       ("continuing_subword_prefix", .vstr ""),
       ("end_of_word_suffix", .vstr ""),
       ("fuse_unk", .vbool false),
       ("train_config", defaultInstance BPETrainConfigClass)],
    ["special_tokens", "pad_token_id", "pad_token"]⟩

/-- Every dataclass declared in the sources. -/
def srcClasses : List PyClass :=
  [ModelConfigClass, PreprocessorConfigClass, DatasetConfigClass,
   EmbeddingConfigClass, CriterionConfigClass, LRSchedulerConfigClass,
   OptimizerConfigClass, MetricConfigClass, TrainerConfigClass,
   BPETrainConfigClass, BPEConfigClass]

/-! ## The load path -/

/-- Modelled from the spec: `get_module_config_class` (in `hezar.utils`, not
part of the sources) is the TypeRegistry's `resolve(name, category)`; it
fails with a "no matching registered type" error when the discriminator pair
is absent.  The only registration visible in the sources is
`@register_preprocessor("bpe_tokenizer", config_class=BPEConfig)`. -/
def get_module_config_class (n ct : Value) : Except PyError PyClass :=
  match n, ct with
  | .vstr "bpe_tokenizer", .vstr "preprocessor" => .ok BPEConfigClass
  | .vstr ns, .vstr cts => .error (.registryError ns cts)
  | _, _ => .error (.registryError "" "")

/-- The tail of `Config.load` once a parsed mapping is in hand: read the
`name` and `config_type` discriminators (a missing key is a `KeyError`),
resolve the concrete class, and call
`config_cls.from_dict(config, strict=False, **kwargs)`. -/
def loadFromMapping (m kwargs : Entries) : Except PyError Value :=
  match m.lookup "name" with
  | none => .error (.keyError "name")
  | some n =>
    match m.lookup "config_type" with
    | none => .error (.keyError "config_type")
    | some ct =>
      match get_module_config_class n ct with
      | .error e => .error e
      | .ok C => Config.from_dict C m (.cons "strict" (.vbool false) kwargs)

/-- The world `Config.load` runs against: which paths are files, which are
directories, what parsing an existing file yields, and the hub.  `files`
models `OmegaConf.load` (the spec's structured text documents round-trip
mappings); `hub` is modelled from the spec's opaque remote-registry
collaborator `download(identifier, filename, subfolder, ...) -> localPath`
(an `.error` is a transport failure). -/
structure World where
  isFile : String → Bool
  isDir : String → Bool
  files : String → Entries
  hub : String → String → String → Except String String

/-- The classmethod `Config.load(hub_or_local_path, filename, subfolder, **kwargs)` with the
`filename or DEFAULT_MODEL_CONFIG_FILE` / `subfolder or ""` defaulting
already applied.  The second component records whether `hf_hub_download` was
invoked. -/
def loadTrace (w : World) (loc filename subfolder : String) (kwargs : Entries) :
    Except PyError Value × Bool :=
  let path := osJoin3 loc subfolder filename
  let isLocal := w.isFile path
  if w.isDir loc && !isLocal then
    (.error (.environmentError loc), false)
  else if isLocal then
    (loadFromMapping (w.files path) kwargs, false)
  else
    match w.hub loc filename subfolder with
    | .error msg => (.error (.transportError msg), true)
    | .ok cached => (loadFromMapping (w.files cached) kwargs, true)

/-! ## Dictionary lemmas -/

/-- Structural induction for `Entries` (the mutual recursor of the
`Value`/`Entries` family needs two motives; claims only ever need this one). -/
theorem Entries.induct (P : Entries → Prop) (nil : P .nil)
    (cons : ∀ k v r, P r → P (.cons k v r)) : ∀ es, P es
  | .nil => nil
  | .cons k v r => cons k v r (Entries.induct P nil cons r)

theorem Entries.lookup_set_self (es : Entries) (k : String) (v : Value) :
    (es.set k v).lookup k = some v := by
  induction es using Entries.induct with
  | nil => simp [Entries.set, Entries.lookup]
  | cons k' v' r ih =>
    by_cases h : k' = k
    · simp [Entries.set, Entries.lookup, h]
    · simp [Entries.set, Entries.lookup, h, ih]

theorem Entries.lookup_set_ne (es : Entries) (k k' : String) (v : Value)
    (h : k ≠ k') : (es.set k v).lookup k' = es.lookup k' := by
  induction es using Entries.induct with
  | nil => simp [Entries.set, Entries.lookup, h]
  | cons k0 v0 r ih =>
    by_cases h0 : k0 = k
    · simp [Entries.set, Entries.lookup, h0, h]
    · simp only [Entries.set, beq_iff_eq, h0, if_false]
      by_cases h1 : k0 = k'
      · simp [Entries.lookup, h1]
      · simp [Entries.lookup, h1, ih]

theorem Entries.isSome_lookup_iff (es : Entries) (k : String) :
    (es.lookup k).isSome = true ↔ k ∈ es.keys := by
  induction es using Entries.induct with
  | nil => simp [Entries.lookup, Entries.keys]
  | cons k' v' r ih =>
    by_cases h : k' = k
    · simp [Entries.lookup, Entries.keys, h]
    · simp [Entries.lookup, Entries.keys, h, ih, Ne.symm h]

theorem Entries.hasKey_iff (es : Entries) (k : String) :
    es.hasKey k = true ↔ k ∈ es.keys :=
  Entries.isSome_lookup_iff es k

theorem Entries.filterKeys_eq_self (es : Entries) (p : String → Bool)
    (h : ∀ k ∈ es.keys, p k = true) : es.filterKeys p = es := by
  induction es using Entries.induct with
  | nil => rfl
  | cons k v r ih =>
    have hk : p k = true := h k (by simp [Entries.keys])
    have hr : ∀ k' ∈ r.keys, p k' = true := fun k' hm => h k' (by simp [Entries.keys, hm])
    simp [Entries.filterKeys, hk, ih hr]

theorem Entries.filterKeys_set_of_false (es : Entries) (p : String → Bool)
    (k : String) (v : Value) (h : p k = false) :
    (es.set k v).filterKeys p = es.filterKeys p := by
  induction es using Entries.induct with
  | nil => simp [Entries.set, Entries.filterKeys, h]
  | cons k' v' r ih =>
    by_cases h0 : k' = k
    · simp [Entries.set, Entries.filterKeys, h0, h]
    · simp only [Entries.set, beq_iff_eq, h0, if_false]
      by_cases h1 : p k'
      · simp [Entries.filterKeys, h1, ih]
      · simp [Entries.filterKeys, h1, ih]

theorem Entries.mem_keys_filterKeys (es : Entries) (p : String → Bool) (k : String)
    (h : k ∈ (es.filterKeys p).keys) : k ∈ es.keys ∧ p k = true := by
  induction es using Entries.induct with
  | nil => simp [Entries.filterKeys, Entries.keys] at h
  | cons k' v' r ih =>
    by_cases h0 : p k'
    · simp only [Entries.filterKeys, h0, if_true, Entries.keys, List.mem_cons] at h
      rcases h with h | h
      · exact ⟨by simp [Entries.keys, h], h ▸ h0⟩
      · rcases ih h with ⟨hm, hp⟩
        exact ⟨by simp [Entries.keys, hm], hp⟩
    · simp only [Entries.filterKeys, h0, if_false] at h
      rcases ih h with ⟨hm, hp⟩
      exact ⟨by simp [Entries.keys, hm], hp⟩

theorem Entries.lookup_pyUpdate_of_notMem (d upd : Entries) (k : String)
    (h : k ∉ upd.keys) : (d.pyUpdate upd).lookup k = d.lookup k := by
  induction upd using Entries.induct generalizing d with
  | nil => rfl
  | cons k' v' r ih =>
    simp only [Entries.keys, List.mem_cons, not_or] at h
    rw [Entries.pyUpdate, ih (d.set k' v') h.2,
      Entries.lookup_set_ne d k' k v' (fun he => h.1 (he ▸ rfl))]

theorem Entries.lookup_pyUpdate_some (d upd : Entries) (k : String) (v : Value)
    (hn : upd.keys.Nodup) (h : upd.lookup k = some v) :
    (d.pyUpdate upd).lookup k = some v := by
  induction upd using Entries.induct generalizing d with
  | nil => simp [Entries.lookup] at h
  | cons k' v' r ih =>
    simp only [Entries.keys, List.nodup_cons] at hn
    by_cases h0 : k' = k
    · subst h0
      simp only [Entries.lookup, beq_self_eq_true, if_true, Option.some.injEq] at h
      subst h
      rw [Entries.pyUpdate, Entries.lookup_pyUpdate_of_notMem _ r k' hn.1,
        Entries.lookup_set_self]
    · simp only [Entries.lookup, beq_iff_eq, h0, if_false] at h
      rw [Entries.pyUpdate, ih (d.set k' v') hn.2 h]

/-! ## Construction lemmas -/

theorem firstNonField_none (C : PyClass) (kw : Entries)
    (h : ∀ k ∈ kw.keys, C.fields.hasKey k = true) : firstNonField C kw = none := by
  induction kw using Entries.induct with
  | nil => rfl
  | cons k v r ih =>
    have hk : C.fields.hasKey k = true := h k (by simp [Entries.keys])
    have hr : ∀ k' ∈ r.keys, C.fields.hasKey k' = true :=
      fun k' hm => h k' (by simp [Entries.keys, hm])
    simp [firstNonField, hk, ih hr]

theorem initFields_skip (decl es : Entries) (k : String) (v : Value)
    (h : k ∉ decl.keys) : initFields decl (.cons k v es) = initFields decl es := by
  induction decl using Entries.induct with
  | nil => rfl
  | cons kd d r ih =>
    simp only [Entries.keys, List.mem_cons, not_or] at h
    have hlk : (Entries.cons k v es).lookup kd = es.lookup kd := by
      simp [Entries.lookup, h.1]
    rw [initFields, initFields, hlk, ih h.2]

theorem initFields_self (decl es : Entries)
    (hk : es.keys = decl.keys) (hn : decl.keys.Nodup) : initFields decl es = es := by
  induction decl using Entries.induct generalizing es with
  | nil =>
    cases es with
    | nil => rfl
    | cons k v r => simp [Entries.keys] at hk
  | cons kd d r ih =>
    cases es with
    | nil => simp [Entries.keys] at hk
    | cons k v es' =>
      simp only [Entries.keys, List.cons.injEq] at hk
      simp only [Entries.keys, List.nodup_cons] at hn
      obtain ⟨hk1, hk2⟩ := hk
      subst hk1
      rw [initFields, initFields_skip r es' k v hn.1, ih es' hk2 hn.2]
      simp [Entries.lookup]

/-! ## `asdict` lemmas -/

mutual
theorem asdictValue_of_configFree : ∀ (v : Value), configFreeV v = true → asdictValue v = v
  | .vnone, _ => rfl
  | .vbool _, _ => rfl
  | .vint _, _ => rfl
  | .vstr _, _ => rfl
  | .vfloat _, _ => rfl
  | .vdict es, h => by
    rw [asdictValue, asdictEntries_of_configFree es (by simpa [configFreeV] using h)]
  | .vconfig c f e, h => by simp [configFreeV] at h

theorem asdictEntries_of_configFree : ∀ (es : Entries), configFreeE es = true → asdictEntries es = es
  | .nil, _ => rfl
  | .cons k v r, h => by
    have h' : configFreeV v = true ∧ configFreeE r = true := by
      simpa [configFreeE, Bool.and_eq_true] using h
    rw [asdictEntries, asdictValue_of_configFree v h'.1, asdictEntries_of_configFree r h'.2]
end

theorem Entries.lookup_asdictEntries (es : Entries) (k : String) :
    (asdictEntries es).lookup k = (es.lookup k).map asdictValue := by
  induction es using Entries.induct with
  | nil => rfl
  | cons k' v r ih =>
    by_cases h : k' = k
    · simp [asdictEntries, Entries.lookup, h]
    · simp [asdictEntries, Entries.lookup, h, ih]

theorem Entries.keys_asdictEntries (es : Entries) :
    (asdictEntries es).keys = es.keys := by
  induction es using Entries.induct with
  | nil => rfl
  | cons k v r ih => simp [asdictEntries, Entries.keys, ih]

/-! ## `update` lemmas -/

theorem updateLoop_ok (C : PyClass) (es : Entries) (inst : Value)
    (h : ∀ k ∈ es.keys, Config.blockedSetattr C k = false) :
    Config.updateLoop C inst es =
      (es.keys.filter (fun k => !(C.fields.hasKey k)),
        Config.applyEntries inst es, none) := by
  induction es using Entries.induct generalizing inst with
  | nil => rfl
  | cons k v r ih =>
    have hk : Config.blockedSetattr C k = false := h k (by simp [Entries.keys])
    have hr : ∀ k' ∈ r.keys, Config.blockedSetattr C k' = false :=
      fun k' hm => h k' (by simp [Entries.keys, hm])
    by_cases hf : C.fields.hasKey k
    · simp [Config.updateLoop, Config.applyEntries, Entries.keys, hk, hf,
        ih (Config.setattrI inst k v) hr]
    · simp [Config.updateLoop, Config.applyEntries, Entries.keys, hk, hf,
        ih (Config.setattrI inst k v) hr]

/-! ## Path lemmas -/

theorem isPrefixL_slash_append (l m : List Char) (h : l ≠ []) :
    isPrefixL ['/'] (l ++ m) = isPrefixL ['/'] l := by
  cases l with
  | nil => exact absurd rfl h
  | cons c r => simp [isPrefixL]

theorem isAbsPath_append (a b : String) (h : a ≠ "") :
    isAbsPath (a ++ b) = isAbsPath a := by
  cases a with
  | mk la =>
    cases b with
    | mk lb =>
      have hla : la ≠ [] := by
        intro he
        exact h (by simp [he])
      show isPrefixL ['/'] (la ++ lb) = isPrefixL ['/'] la
      exact isPrefixL_slash_append la lb hla

theorem append_ne_empty (a b : String) (h : a ≠ "") : a ++ b ≠ "" := by
  cases a with
  | mk la =>
    cases b with
    | mk lb =>
      intro he
      apply h
      have : la ++ lb = [] := congrArg String.data he
      have hla : la = [] := by
        cases la with
        | nil => rfl
        | cons c r => simp at this
      simp [hla]

theorem isAbsPath_osJoin (a b : String) (ha : a ≠ "")
    (hb : strStartsWith b "/" = false) : isAbsPath (osJoin a b) = isAbsPath a := by
  rw [osJoin, hb, if_neg Bool.false_ne_true]
  cases hcond : ((a == "") || strEndsWith a "/") with
  | true =>
    rw [if_pos rfl]
    exact isAbsPath_append a b ha
  | false =>
    rw [if_neg Bool.false_ne_true]
    first
      | exact isAbsPath_append a ("/" ++ b) ha
      | rw [isAbsPath_append (a ++ "/") b (append_ne_empty a "/" ha),
          isAbsPath_append a "/" ha]

theorem osJoin_ne_empty (a b : String) (ha : a ≠ "") : osJoin a b ≠ "" := by
  rw [osJoin]
  by_cases h1 : strStartsWith b "/" = true
  · rw [if_pos h1]
    cases b with
    | mk lb =>
      cases lb with
      | nil => simp [strStartsWith, isPrefixL] at h1
      | cons c r =>
        intro he
        have := congrArg String.data he
        simp at this
  · rw [if_neg h1]
    by_cases h2 : ((a == "") || strEndsWith a "/") = true
    · rw [if_pos h2]
      exact append_ne_empty a b ha
    · rw [if_neg h2]
      exact append_ne_empty (a ++ "/") b (append_ne_empty a "/" ha)

/-- The key lists of every class table are duplicate-free (Python class
bodies cannot declare the same field twice). -/
theorem srcClasses_fields_nodup : ∀ C ∈ srcClasses, C.fields.keys.Nodup := by
  decide

/-! ## Concrete instances used by the claims -/

/-- Field slots of an `OptimizerConfig` whose `scheduler` holds a nested
`LRSchedulerConfig` instance and whose fields are all non-null. -/
def optFields : Entries :=
  entriesOf [("lr", .vfloat "0.1"), ("weight_decay", .vfloat "0.0"),
             ("scheduler", .vconfig "LRSchedulerConfig"
               (entriesOf [("verbose", .vbool true)]) .nil)]

/-- The instance `OptimizerConfig(lr=0.1, weight_decay=0.0, scheduler=LRSchedulerConfig())`. -/
def optInstance : Value := .vconfig "OptimizerConfig" optFields .nil

/-- Optimizer field slots with no nested config value (the scheduler given
as a plain dict, one of its declared `Union` alternatives). -/
def flatOptFields : Entries :=
  entriesOf [("lr", .vfloat "0.001"), ("weight_decay", .vfloat "0.01"),
             ("scheduler", .vdict (entriesOf [("verbose", .vbool true)]))]

/-- A `TrainerConfig` with `seed` explicitly set to `None`. -/
def trainerNullSeed : Value :=
  .vconfig "TrainerConfig" ((TrainerConfigClass.fields).set "seed" .vnone) .nil

/-- The world after `trainerNullSeed` was saved to
`ckpt/train_config.yaml`: that file exists inside the existing directory
`ckpt`, parsing it returns exactly the saved mapping, and the hub is
unreachable (a remote call could only fail, not silently succeed). -/
def savedWorld : World :=
  { isFile := fun p => p == "ckpt/train_config.yaml"
    isDir := fun p => p == "ckpt"
    files := fun _ => (Config.save trainerNullSeed "ckpt" "" "train_config.yaml").written
    hub := fun _ _ _ => .error "offline" }

/-- A world with an existing local directory `somedir` that contains no
config file anywhere. -/
def c3World : World :=
  { isFile := fun _ => false
    isDir := fun p => p == "somedir"
    files := fun _ => .nil
    hub := fun _ _ _ => .error "offline" }

/-- Field slots of `BPEConfig` with the `name` field overridden. -/
def bpeCustomFields : Entries :=
  (BPEConfigClass.fields).set "name" (.vstr "custom")

/-- A caller-supplied dictionary for the `update` frame-effect witness. -/
def dEx : Entries := entriesOf [("a", .vint 1)]

/-- Keyword arguments colliding with `dEx` on `"a"`. -/
def kwEx : Entries := entriesOf [("a", .vint 2), ("b", .vint 3)]

/-! ## The claims -/

/-- C1: evaluated at the claim's own scenario the code fails.  For two
distinct concrete config types whose direct parent is the base category type
`ModelConfig`, `config_type` does not report the shared category `"model"`:
after the parent lookup succeeds, the source's `else` branch evaluates
`CONFIG_TYPES_MAPPING[self.__class__.__name__]`, so both raise `KeyError` on
their own class names (`BertLMConfig` is the concrete model config used in
the module's own docstring).  Only the base category classes themselves
report a category. -/
theorem c1_config_type_keyerror_on_concrete_subclass :
    Config.configTypeOf "BertLMConfig" "ModelConfig" =
      .error (.keyError "BertLMConfig") ∧
    Config.configTypeOf "DistilBertLMConfig" "ModelConfig" =
      .error (.keyError "DistilBertLMConfig") ∧
    Config.configTypeOf "ModelConfig" "Config" = .ok "model" ∧
    Config.configTypeOf "DatasetConfig" "Config" = .ok "dataset" := by
  decide

/-- C2 counterexample: `"config_type"` is not a declared dataclass field of
`ModelConfig`, yet `from_dict` neither drops it nor succeeds: the key passes
the `hasattr` filter (it is a property of the base class) and the dataclass
constructor rejects it with `TypeError` — and every generically loadable
document carries this key. -/
theorem c2_nonfield_key_not_dropped :
    ModelConfigClass.fields.hasKey "config_type" = false ∧
    Config.from_dict ModelConfigClass
      (entriesOf [("config_type", .vstr "model")]) .nil =
      .error (.typeError "config_type") := by
  decide

/-- C2 (amended): `from_dict` keeps exactly the keys passing the
`hasattr(cls, k)` check, not the declared-field check.  When every surviving
key of the mapping is a declared field (no key names a method or property of
the class), construction succeeds with the mapping's values and keys that
are not class attributes are silently dropped.  There is no strict mode: the
`strict=False` keyword that `load` passes is merged into the mapping and
then dropped like any other non-attribute key, changing nothing. -/
theorem c2_from_dict_hasattr_filter (C : PyClass) (m : Entries)
    (h1 : ∀ k ∈ m.keys, hasattrC C k = true → C.fields.hasKey k = true)
    (h2 : hasattrC C "strict" = false) :
    Config.from_dict C m .nil =
      .ok (.vconfig C.name (initFields C.fields (m.filterKeys (hasattrC C))) .nil) ∧
    Config.from_dict C m (entriesOf [("strict", .vbool false)]) =
      Config.from_dict C m .nil := by
  constructor
  · have hff : firstNonField C (m.filterKeys (hasattrC C)) = none := by
      apply firstNonField_none
      intro k hk
      rcases Entries.mem_keys_filterKeys m (hasattrC C) k hk with ⟨hm, hp⟩
      exact h1 k hm hp
    show dataclassInit C (m.filterKeys (hasattrC C)) = _
    simp [dataclassInit, hff]
  · show dataclassInit C
      ((m.pyUpdate (entriesOf [("strict", .vbool false)])).filterKeys (hasattrC C)) =
      dataclassInit C (m.filterKeys (hasattrC C))
    have hup : m.pyUpdate (entriesOf [("strict", .vbool false)]) =
        m.set "strict" (.vbool false) := rfl
    rw [hup, Entries.filterKeys_set_of_false m (hasattrC C) "strict" (.vbool false) h2]

/-- C2 witness: on `TrainerConfig`, a declared key is used, an unknown
non-attribute key is dropped without error, and `strict=False` is inert. -/
theorem c2_from_dict_hasattr_filter_witness :
    Config.from_dict TrainerConfigClass
      (entriesOf [("device", .vstr "cpu"), ("totally_unknown", .vint 5)]) .nil =
      .ok (.vconfig TrainerConfigClass.name
        (initFields TrainerConfigClass.fields
          ((entriesOf [("device", .vstr "cpu"), ("totally_unknown", .vint 5)]).filterKeys
            (hasattrC TrainerConfigClass))) .nil) ∧
    Config.from_dict TrainerConfigClass
      (entriesOf [("device", .vstr "cpu"), ("totally_unknown", .vint 5)])
      (entriesOf [("strict", .vbool false)]) =
      Config.from_dict TrainerConfigClass
        (entriesOf [("device", .vstr "cpu"), ("totally_unknown", .vint 5)]) .nil :=
  c2_from_dict_hasattr_filter TrainerConfigClass
    (entriesOf [("device", .vstr "cpu"), ("totally_unknown", .vint 5)])
    (by decide) (by decide)

/-- C3: local-first policy of `Config.load`.  When the location is an
existing local directory and the composed path is not a file, `load` raises
`EnvironmentError` for every possible hub (and the trace records that
`hf_hub_download` was not called); conversely, whenever the hub is called,
the location was neither a local file match nor a local directory. -/
theorem c3_local_dir_missing_file_no_remote (w : World)
    (loc filename subfolder : String) (kwargs : Entries) :
    (w.isDir loc = true → w.isFile (osJoin3 loc subfolder filename) = false →
      loadTrace w loc filename subfolder kwargs =
        (.error (.environmentError loc), false)) ∧
    ((loadTrace w loc filename subfolder kwargs).2 = true →
      w.isDir loc = false ∧ w.isFile (osJoin3 loc subfolder filename) = false) := by
  constructor
  · intro hd hf
    simp [loadTrace, hd, hf]
  · intro h
    by_cases hf : w.isFile (osJoin3 loc subfolder filename) = true
    · exfalso
      simp [loadTrace, hf] at h
    · simp only [Bool.not_eq_true] at hf
      by_cases hd : w.isDir loc = true
      · exfalso
        simp [loadTrace, hd, hf] at h
      · simp only [Bool.not_eq_true] at hd
        exact ⟨hd, hf⟩

/-- C3 witness: in a world with directory `somedir` and no file, `load`
raises the resolution error and the hub stays untouched. -/
theorem c3_local_dir_missing_file_no_remote_witness :
    loadTrace c3World "somedir" "model_config.yaml" "" .nil =
      (.error (.environmentError "somedir"), false) :=
  (c3_local_dir_missing_file_no_remote c3World "somedir" "model_config.yaml" "" .nil).1
    (by decide) (by decide)

/-- C4 counterexample: the round trip is not the identity on instances whose
fields hold nested config values.  `optInstance` has no null fields, yet
`from_dict(type(c))(c.dict())` returns an instance whose `scheduler` field
has become a plain dict, which is not equal to the original. -/
theorem c4_roundtrip_fails_on_nested_config :
    noNoneV optInstance = true ∧
    Config.from_dict OptimizerConfigClass (Config.dict optInstance) .nil =
      .ok (.vconfig "OptimizerConfig"
        (entriesOf [("lr", .vfloat "0.1"), ("weight_decay", .vfloat "0.0"),
                    ("scheduler", .vdict (entriesOf [("verbose", .vbool true)]))]) .nil) ∧
    Config.from_dict OptimizerConfigClass (Config.dict optInstance) .nil ≠
      .ok optInstance := by
  decide

/-- C4 (amended): `from_dict(type(c))(c.dict())` reproduces `c` for every
well-formed instance of a source class none of whose field values contains a
nested config instance (the claim's no-null hypothesis is kept); nested
configs are flattened by `asdict` and come back as plain mappings — see the
counterexample. -/
theorem c4_roundtrip_configfree (C : PyClass) (fields : Entries)
    (hC : C ∈ srcClasses)
    (hs : shapeOK C (.vconfig C.name fields .nil) = true)
    (hcf : configFreeE fields = true)
    (_hn : noNoneE fields = true) :
    Config.from_dict C (Config.dict (.vconfig C.name fields .nil)) .nil =
      .ok (.vconfig C.name fields .nil) := by
  have hkeys : fields.keys = C.fields.keys := by
    simp only [shapeOK, Bool.and_eq_true, beq_iff_eq] at hs
    exact hs.1.2
  have hdict : Config.dict (.vconfig C.name fields .nil) = fields :=
    asdictEntries_of_configFree fields hcf
  have hfilter : fields.filterKeys (hasattrC C) = fields := by
    apply Entries.filterKeys_eq_self
    intro k hk
    have hf : C.fields.hasKey k = true :=
      (Entries.hasKey_iff C.fields k).2 (hkeys ▸ hk)
    simp [hasattrC, hf]
  have hff : firstNonField C fields = none := by
    apply firstNonField_none
    intro k hk
    exact (Entries.hasKey_iff C.fields k).2 (hkeys ▸ hk)
  have hinit : initFields C.fields fields = fields :=
    initFields_self C.fields fields hkeys (srcClasses_fields_nodup C hC)
  calc Config.from_dict C (Config.dict (.vconfig C.name fields .nil)) .nil
      = dataclassInit C
          ((Config.dict (.vconfig C.name fields .nil)).filterKeys (hasattrC C)) := rfl
    _ = dataclassInit C (fields.filterKeys (hasattrC C)) := by rw [hdict]
    _ = dataclassInit C fields := by rw [hfilter]
    _ = .ok (.vconfig C.name (initFields C.fields fields) .nil) := by
        simp [dataclassInit, hff]
    _ = .ok (.vconfig C.name fields .nil) := by rw [hinit]

/-- C4 witness: the flat optimizer instance (scheduler given as a plain
dict) round-trips to itself. -/
theorem c4_roundtrip_configfree_witness :
    Config.from_dict OptimizerConfigClass
      (Config.dict (.vconfig OptimizerConfigClass.name flatOptFields .nil)) .nil =
      .ok (.vconfig OptimizerConfigClass.name flatOptFields .nil) :=
  c4_roundtrip_configfree OptimizerConfigClass flatOptFields
    (by decide) (by decide) (by decide) (by decide)

/-- C5: the null-drop half of the claim holds — `seed`, set to `None`, is
excluded from the persisted mapping, and re-materializing that mapping into
`TrainerConfig` restores the declared default `42` (here: the full default
instance).  But the save-then-load composition the claim asserts fails:
`dict()` iterates dataclass fields only, so the saved mapping lacks the
derived `name`/`config_type` discriminators that `load` reads, and loading
the just-saved file raises `KeyError("name")` (with no remote call) instead
of returning a config. -/
theorem c5_save_drops_null_but_load_of_saved_file_fails :
    (Config.save trainerNullSeed "ckpt" "" "train_config.yaml").written.lookup "seed" =
      none ∧
    (Config.save trainerNullSeed "ckpt" "" "train_config.yaml").written.lookup "device" =
      some (.vstr "cuda") ∧
    Config.from_dict TrainerConfigClass
      (Config.save trainerNullSeed "ckpt" "" "train_config.yaml").written .nil =
      .ok (defaultInstance TrainerConfigClass) ∧
    loadTrace savedWorld "ckpt" "train_config.yaml" "" .nil =
      (.error (.keyError "name"), false) := by
  decide

/-- C6 counterexample: `update` CAN raise.  `"name"` is not a declared field
of `DatasetConfig`, so the claim requires a warning followed by a successful
set; the code warns and then `setattr` hits the setterless `name` property
of the base class, raising `AttributeError` — the caller gets an exception,
not the instance. -/
theorem c6_update_raises_on_property_key :
    (Config.update DatasetConfigClass (defaultInstance DatasetConfigClass)
      (entriesOf [("name", .vint 1)]) .nil).result =
      .error (.attributeError "name") ∧
    (Config.update DatasetConfigClass (defaultInstance DatasetConfigClass)
      (entriesOf [("name", .vint 1)]) .nil).warnings = ["name"] := by
  decide

/-- C6 (amended): whenever no merged key collides with the setterless
`name`/`config_type` properties (every key is a declared field, a shadowing
class attribute, or an ordinary new name), `update` never raises: the
caller's dict is mutated with the keyword arguments, exactly one warning is
emitted per merged key that is not a declared field (none for declared
fields), every key is set on the instance, and the returned value is
precisely the final mutated instance. -/
theorem c6_update_no_raise_when_unblocked (C : PyClass) (inst : Value)
    (d kwargs : Entries)
    (h : ∀ k ∈ (d.pyUpdate kwargs).keys, Config.blockedSetattr C k = false) :
    Config.update C inst d kwargs =
      { dAfter := d.pyUpdate kwargs
        self := Config.applyEntries inst (d.pyUpdate kwargs)
        warnings := (d.pyUpdate kwargs).keys.filter (fun k => !(C.fields.hasKey k))
        result := .ok (Config.applyEntries inst (d.pyUpdate kwargs)) } := by
  simp [Config.update, updateLoop_ok C (d.pyUpdate kwargs) inst h]

/-- C6 witness: a fresh key (one warning, attribute set) together with a
declared-field keyword override (no warning), no exception, and the returned
instance is the mutated one. -/
theorem c6_update_no_raise_when_unblocked_witness :
    Config.update TrainerConfigClass (defaultInstance TrainerConfigClass)
      (entriesOf [("new_key", .vint 7)]) (entriesOf [("device", .vstr "cpu")]) =
      { dAfter := (entriesOf [("new_key", .vint 7)]).pyUpdate
          (entriesOf [("device", .vstr "cpu")])
        self := Config.applyEntries (defaultInstance TrainerConfigClass)
          ((entriesOf [("new_key", .vint 7)]).pyUpdate
            (entriesOf [("device", .vstr "cpu")]))
        warnings := ((entriesOf [("new_key", .vint 7)]).pyUpdate
          (entriesOf [("device", .vstr "cpu")])).keys.filter
            (fun k => !(TrainerConfigClass.fields.hasKey k))
        result := .ok (Config.applyEntries (defaultInstance TrainerConfigClass)
          ((entriesOf [("new_key", .vint 7)]).pyUpdate
            (entriesOf [("device", .vstr "cpu")]))) } :=
  c6_update_no_raise_when_unblocked TrainerConfigClass
    (defaultInstance TrainerConfigClass)
    (entriesOf [("new_key", .vint 7)]) (entriesOf [("device", .vstr "cpu")])
    (by decide)

/-- C7 counterexample: `BPEConfig` declares `name` as a stored dataclass
field (default `"bpe_tokenizer"`), so `name` IS separate per-instance state:
the constructor accepts a `name` keyword, two instances of the same concrete
type report different names, and neither equals the class-name-derived
identifier. -/
theorem c7_name_stored_on_bpeconfig :
    BPEConfigClass.fields.hasKey "name" = true ∧
    dataclassInit BPEConfigClass (entriesOf [("name", .vstr "custom")]) =
      .ok (.vconfig "BPEConfig" bpeCustomFields .nil) ∧
    Config.getName BPEConfigClass (.vconfig "BPEConfig" bpeCustomFields .nil) =
      .vstr "custom" ∧
    Config.getName BPEConfigClass (defaultInstance BPEConfigClass) =
      .vstr "bpe_tokenizer" ∧
    Config.nameProp "BPEConfig" = "b_p_e" := by
  decide

/-- C7 (amended): for every config class that does not declare `name` as a
dataclass field — every class in `configs.py` — `name` is computed from the
concrete type's class name exactly as claimed, with no per-instance state
involved; `BPEConfig` and `BPETrainConfig` instead shadow the property with
a stored field defaulting to `"bpe_tokenizer"` (see the counterexample). -/
theorem c7_name_derived_when_not_declared (C : PyClass) (inst : Value)
    (hs : shapeOK C inst = true) (hn : C.fields.hasKey "name" = false) :
    Config.getName C inst = .vstr (Config.nameProp C.name) := by
  cases inst with
  | vconfig c fields extra =>
    simp only [shapeOK, Bool.and_eq_true, beq_iff_eq] at hs
    obtain ⟨⟨-, hkeys⟩, hextra⟩ := hs
    have hfl : fields.lookup "name" = none := by
      rcases hl : fields.lookup "name" with _ | v
      · rfl
      · exfalso
        have hm : "name" ∈ fields.keys :=
          (Entries.isSome_lookup_iff fields "name").1 (by rw [hl]; rfl)
        rw [hkeys] at hm
        have hk := (Entries.hasKey_iff C.fields "name").2 hm
        rw [hn] at hk
        exact Bool.false_ne_true hk
    cases extra with
    | nil => simp [Config.getName, hfl, Entries.lookup]
    | cons a b c2 => simp at hextra
  | vnone => simp [shapeOK] at hs
  | vbool b => simp [shapeOK] at hs
  | vint n => simp [shapeOK] at hs
  | vstr s => simp [shapeOK] at hs
  | vfloat f => simp [shapeOK] at hs
  | vdict es => simp [shapeOK] at hs

/-- C7 witness: `TrainerConfig` does not declare `name`, so its instances
report the derived identifier `"trainer"`. -/
theorem c7_name_derived_when_not_declared_witness :
    Config.getName TrainerConfigClass (defaultInstance TrainerConfigClass) =
      .vstr "trainer" :=
  (c7_name_derived_when_not_declared TrainerConfigClass
    (defaultInstance TrainerConfigClass) (by decide) (by decide)).trans (by decide)

/-- C8 counterexample: `save` returns the path exactly as composed, which is
relative — not absolute — whenever `save_dir` is relative. -/
theorem c8_save_returns_relative_path :
    (Config.save (defaultInstance ModelConfigClass)
      "saved" "" "model_config.yaml").writtenPath = "saved/model_config.yaml" ∧
    isAbsPath "saved/model_config.yaml" = false := by
  decide

/-- C8 (amended): `save` creates `save_dir/subfolder` with `exist_ok=True`
(so a second save to the same directory succeeds — the effect is a total
function of the arguments), writes the null-stripped mapping to
`save_dir/subfolder/filename`, and returns that composed path verbatim; the
returned path is absolute exactly when `save_dir` is absolute (for
components that do not themselves start with the separator, which
`os.path.join` would let take over the path). -/
theorem c8_save_effect (inst : Value) (dir sub fn : String)
    (hd : dir ≠ "") (hsub : strStartsWith sub "/" = false)
    (hfn : strStartsWith fn "/" = false) :
    Config.save inst dir sub fn =
      { madeDir := osJoin dir sub
        writtenPath := osJoin3 dir sub fn
        written := (Config.dict inst).dropNone } ∧
    isAbsPath (Config.save inst dir sub fn).writtenPath = isAbsPath dir := by
  refine ⟨rfl, ?_⟩
  show isAbsPath (osJoin3 dir sub fn) = isAbsPath dir
  rw [osJoin3, isAbsPath_osJoin (osJoin dir sub) fn (osJoin_ne_empty dir sub hd) hfn,
    isAbsPath_osJoin dir sub hd hsub]

/-- C8 witness: saving under an absolute directory with a subfolder. -/
theorem c8_save_effect_witness :
    Config.save (defaultInstance ModelConfigClass) "/models" "sub" "config.yaml" =
      { madeDir := osJoin "/models" "sub"
        writtenPath := osJoin3 "/models" "sub" "config.yaml"
        written := (Config.dict (defaultInstance ModelConfigClass)).dropNone } ∧
    isAbsPath (Config.save (defaultInstance ModelConfigClass)
      "/models" "sub" "config.yaml").writtenPath = isAbsPath "/models" :=
  c8_save_effect (defaultInstance ModelConfigClass) "/models" "sub" "config.yaml"
    (by decide) (by decide) (by decide)

/-- C9 counterexample: for a declared field holding a nested config value,
`c[k]` does not return the field's value: `__getitem__` reads from
`self.dict()`, which has flattened the nested instance into a plain dict. -/
theorem c9_getitem_returns_asdict_image :
    optFields.lookup "scheduler" =
      some (.vconfig "LRSchedulerConfig" (entriesOf [("verbose", .vbool true)]) .nil) ∧
    Config.getitem optInstance "scheduler" =
      .ok (.vdict (entriesOf [("verbose", .vbool true)])) ∧
    Value.vdict (entriesOf [("verbose", .vbool true)]) ≠
      Value.vconfig "LRSchedulerConfig" (entriesOf [("verbose", .vbool true)]) .nil := by
  decide

/-- C9 (amended): `c[k]` returns the `asdict` image of the stored field
value when `k` is a declared dataclass field (identical to the stored value
unless it contains a nested config) and raises `AttributeError` for every
other key — in particular for `name` and `config_type` on types that do not
declare them as fields, even though attribute access derives them. -/
theorem c9_getitem_field_or_attributeerror (C : PyClass)
    (fields extra : Entries) (k : String)
    (hs : shapeOK C (.vconfig C.name fields extra) = true) :
    (C.fields.hasKey k = true →
      ∃ v, fields.lookup k = some v ∧
        Config.getitem (.vconfig C.name fields extra) k = .ok (asdictValue v)) ∧
    (C.fields.hasKey k = false →
      Config.getitem (.vconfig C.name fields extra) k =
        .error (.attributeError k)) := by
  simp only [shapeOK, Bool.and_eq_true, beq_iff_eq] at hs
  obtain ⟨⟨-, hkeys⟩, -⟩ := hs
  have hget : ∀ (o : Option Value), (asdictEntries fields).lookup k = o →
      Config.getitem (.vconfig C.name fields extra) k =
        (match o with
          | some v => .ok v
          | none => .error (.attributeError k)) := by
    intro o ho
    show (match (asdictEntries fields).lookup k with
      | some v => (Except.ok v : Except PyError Value)
      | none => .error (.attributeError k)) = _
    rw [ho]
  constructor
  · intro hk
    have hm : k ∈ fields.keys := by
      rw [hkeys]
      exact (Entries.hasKey_iff C.fields k).1 hk
    rcases hl : fields.lookup k with _ | v
    · exfalso
      have := (Entries.isSome_lookup_iff fields k).2 hm
      rw [hl] at this
      simp at this
    · refine ⟨v, rfl, ?_⟩
      apply hget (some (asdictValue v))
      rw [Entries.lookup_asdictEntries, hl]
      rfl
  · intro hk
    have hnone : fields.lookup k = none := by
      rcases hl : fields.lookup k with _ | v
      · rfl
      · exfalso
        have hm : k ∈ fields.keys :=
          (Entries.isSome_lookup_iff fields k).1 (by rw [hl]; rfl)
        rw [hkeys] at hm
        have hkk := (Entries.hasKey_iff C.fields k).2 hm
        rw [hk] at hkk
        exact Bool.false_ne_true hkk
    apply hget none
    rw [Entries.lookup_asdictEntries, hnone]
    rfl

/-- C9 witness: `c["name"]` raises `AttributeError` on a default
`TrainerConfig` even though `c.name` is a derived property. -/
theorem c9_getitem_field_or_attributeerror_witness :
    Config.getitem (.vconfig TrainerConfigClass.name TrainerConfigClass.fields .nil)
      "name" = .error (.attributeError "name") :=
  (c9_getitem_field_or_attributeerror TrainerConfigClass
    TrainerConfigClass.fields .nil "name" (by decide)).2 (by decide)

/-- C10: `update` mutates the caller-supplied dictionary in place via
`d.update(kwargs)` before the loop runs: afterwards `d` holds every binding
of the keyword arguments (keywords winning on collision), so whenever some
keyword binding differs from what `d` held, the dictionary the caller passed
in is observably changed — and this holds even when the subsequent `setattr`
loop raises. -/
theorem c10_update_mutates_caller_dict (C : PyClass) (inst : Value)
    (d kwargs : Entries) (hn : kwargs.keys.Nodup) :
    (Config.update C inst d kwargs).dAfter = d.pyUpdate kwargs ∧
    (∀ k v, kwargs.lookup k = some v → (d.pyUpdate kwargs).lookup k = some v) ∧
    (∀ k v, kwargs.lookup k = some v → d.lookup k ≠ some v →
      (Config.update C inst d kwargs).dAfter ≠ d) := by
  have hd : (Config.update C inst d kwargs).dAfter = d.pyUpdate kwargs := by
    rcases hu : Config.updateLoop C inst (d.pyUpdate kwargs) with ⟨ws, instF, err⟩
    cases err <;> simp [Config.update, hu]
  refine ⟨hd, ?_, ?_⟩
  · intro k v hkv
    exact Entries.lookup_pyUpdate_some d kwargs k v hn hkv
  · intro k v hkv hne heq
    rw [hd] at heq
    have hlk := Entries.lookup_pyUpdate_some d kwargs k v hn hkv
    rw [heq] at hlk
    exact hne hlk

/-- C10 witness: `d = {"a": 1}` updated with keywords `a=2, b=3` ends as
`{"a": 2, "b": 3}`, visibly different from the dictionary passed in. -/
theorem c10_update_mutates_caller_dict_witness :
    (Config.update ModelConfigClass (defaultInstance ModelConfigClass)
      dEx kwEx).dAfter = entriesOf [("a", .vint 2), ("b", .vint 3)] ∧
    (Config.update ModelConfigClass (defaultInstance ModelConfigClass)
      dEx kwEx).dAfter ≠ dEx :=
  ⟨((c10_update_mutates_caller_dict ModelConfigClass
      (defaultInstance ModelConfigClass) dEx kwEx (by decide)).1).trans (by decide),
   (c10_update_mutates_caller_dict ModelConfigClass
      (defaultInstance ModelConfigClass) dEx kwEx (by decide)).2.2
     "a" (.vint 2) (by decide) (by decide)⟩

end Hezar
